import Mathlib

/-!
# sshme: session protocol handling

A shallow embedding of `session.go` and of `handle` from `server.go`.

* Byte slices are `List UInt8`; a `bytes.Reader` is the list of bytes not yet consumed.
* Go's `int` is taken to be 64 bits wide (amd64, arm64), so the conversion `int(x)` of a
  `uint32` keeps the value; widths and heights are `Int`.
* The ssh library is the environment.  Every call into it (`Reject`, `Accept`, `Reply`,
  `Write`, `ReadRune`, `Close`) and every `log.Printf` is recorded as an `Event`, in program
  order; the result the environment gives back is part of the model's input, so that a
  statement quantified over the inputs covers every behaviour of the environment.
-/

namespace Sshme

/-! ## Errors and events -/

/-- Go `error` values that occur in the program: the two sentinels of package `io`, and an
error that carries a message (`errors.New`, or whatever the ssh library reports). -/
inductive Error where
  | EOF
  | ErrUnexpectedEOF
  | New (msg : String)
  deriving DecidableEq, Repr

/-- The rejection reasons of package `ssh` (`ssh.RejectionReason`). -/
inductive RejectionReason where
  | Prohibited
  | ConnectionFailed
  | UnknownChannelType
  | ResourceShortage
  deriving DecidableEq, Repr

/-- One observable action of the program.  The `Option Error` is what the call returned. -/
inductive Event where
  | reject (reason : RejectionReason) (message : String) (err : Option Error)
  | accept (err : Option Error)
  | reply (ok : Bool) (err : Option Error)
  | write (data : List UInt8) (err : Option Error)
  | readRune (err : Option Error)
  | close (err : Option Error)
  | log (msg : String)
  deriving DecidableEq, Repr

/-- Is the event a `log.Printf` line. -/
def Event.isLog : Event → Bool
  | .log _ => true
  | _ => false

/-- Is the event a `Write` on the channel. -/
def Event.isWrite : Event → Bool
  | .write _ _ => true
  | _ => false

/-- Is the event a `Close` of the channel. -/
def Event.isClose : Event → Bool
  | .close _ => true
  | _ => false

/-- Is the event a read of one rune from the channel. -/
def Event.isReadRune : Event → Bool
  | .readRune _ => true
  | _ => false

/-- The events that are calls into the ssh library, the log lines left out. -/
def calls (es : List Event) : List Event :=
  es.filter (fun e => !e.isLog)

/-! ## `encoding/binary` and `bytes.Reader` -/

/-- `binary.BigEndian.Uint32`:
`uint32(b[3]) | uint32(b[2])<<8 | uint32(b[1])<<16 | uint32(b[0])<<24`. -/
def Uint32 (b0 b1 b2 b3 : UInt8) : Nat :=
  b3.toNat ||| b2.toNat <<< 8 ||| b1.toNat <<< 16 ||| b0.toNat <<< 24

/-- `binary.BigEndian.PutUint32`: the four bytes `byte(v>>24)`, `byte(v>>16)`, `byte(v>>8)`,
`byte(v)`.  This is how a peer writes a 32-bit field of a payload. -/
def PutUint32 (v : Nat) : List UInt8 :=
  [UInt8.ofNat (v >>> 24), UInt8.ofNat (v >>> 16), UInt8.ofNat (v >>> 8), UInt8.ofNat v]

/-- `binary.Read(r, binary.BigEndian, &x)` for a `uint32` `x`: `io.ReadFull` of four bytes.
With no byte left the error is `io.EOF`, with one to three bytes left it is
`io.ErrUnexpectedEOF`.  On success the value and the rest of the reader are returned. -/
def binaryRead (r : List UInt8) : Except Error (Nat × List UInt8) :=
  match r with
  | b0 :: b1 :: b2 :: b3 :: rest => .ok (Uint32 b0 b1 b2 b3, rest)
  | [] => .error Error.EOF
  | _ => .error Error.ErrUnexpectedEOF

/-- `(*bytes.Reader).Read(b)` with `len(b) = n`: at the end of the input it returns
`0, io.EOF` (also for `n = 0`); otherwise it copies `min n (remaining)` bytes and returns no
error, so a short read is not an error. -/
def readerRead (r : List UInt8) (n : Nat) : Except Error (List UInt8 × List UInt8) :=
  match r with
  | [] => .error Error.EOF
  | _ => .ok (r.take n, r.drop n)

/-- The conversion `int(x)` of a `uint32`; `int` has 64 bits, the value is kept. -/
def toInt (x : Nat) : Int := Int.ofNat x

/-! ## Parsing of the request payloads -/

/-- `parseTerm`: a 4-byte length, then one `Read` into a buffer of that length.  The bytes
read are returned in place of the Go string made from them. -/
def parseTerm (r : List UInt8) : Except Error (List UInt8 × List UInt8) :=
  match binaryRead r with
  | .error err => .error err
  | .ok (termLen, r1) =>
    match readerRead r1 termLen with
    | .error err => .error err
    | .ok (term, r2) => .ok (term, r2)

/-- `parseSize`: two 4-byte fields.  As in Go all three results are returned: on an error
they are `0, 0, err`. -/
def parseSize (r : List UInt8) : Int × Int × Option Error :=
  match binaryRead r with
  | .error err => (0, 0, some err)
  | .ok (width, r1) =>
    match binaryRead r1 with
    | .error err => (0, 0, some err)
    | .ok (height, _) => (toInt width, toInt height, none)

/-! ## The ssh library as environment -/

/-- An accepted `ssh.Channel`, as far as the program uses it.  `writeErrs` holds the results
of the `Write` calls to come, one per call and in order (a call after the list is used up
succeeds); `readErr` is the result of reading one rune, `closeErr` the result of `Close`. -/
structure Channel where
  writeErrs : List (Option Error)
  readErr : Option Error
  closeErr : Option Error
  deriving DecidableEq, Repr

/-- `Write` on the channel: the call takes the next result of the environment. -/
def Channel.Write (c : Channel) : Channel × Option Error :=
  match c.writeErrs with
  | [] => (c, none)
  | err :: errs => ({ c with writeErrs := errs }, err)

/-- An `ssh.Request`: its fields `Type`, `WantReply` and `Payload`, and the result that a call
of its method `Reply` returns. -/
structure Request where
  Type_ : String
  WantReply : Bool
  Payload : List UInt8
  replyErr : Option Error
  deriving DecidableEq, Repr

/-- The struct `Session`.  `requests` is the content of the request stream: the requests it
delivers, in order, before it is closed. -/
structure Session where
  channel : Channel
  requests : List Request
  width : Int
  height : Int
  deriving DecidableEq, Repr

/-- An `ssh.NewChannel`: the channel type the peer asked for, the results of `Reject` and of
`Accept`, and the channel and request stream that a successful `Accept` hands over. -/
structure NewChannel where
  channelType : String
  rejectErr : Option Error
  acceptErr : Option Error
  channel : Channel
  requests : List Request
  deriving DecidableEq, Repr

/-! ## Rendering -/

/-- The fragments that `render` prints, in order. -/
def parts : List String := [
  "\x1b[2J",
  "\x1b[H",
  "╔══════════════════════════════════════════════════════════════════════════════╗\r\n",
  "║                                                                              ║\r\n",
  "║                                                                              ║\r\n",
  "║     \x1b[1mYutaka Ichibangase\x1b[0m                                                       ║\r\n",
  "║                                                                              ║\r\n",
  "║                                                                              ║\r\n",
  "║     I'm a software developer specialized in \x1b[4msolving business problems\x1b[0m.       ║\r\n",
  "║     Since I moved to \x1b[4mTokyo, Japan\x1b[0m, I've worked on \x1b[4mbusiness process \x1b[0m          ║\r\n",
  "║     \x1b[4mautomation\x1b[0m for offices, \x1b[4mcontent creation platform\x1b[0m for a content          ║\r\n",
  "║     writing business, \x1b[4msocial media marketing tool\x1b[0m for international          ║\r\n",
  "║     fashion brands, and so on.                                               ║\r\n",
  "║                                                                              ║\r\n",
  "║                                                                              ║\r\n",
  "║                 GitHub  https://github.com/ichiban                           ║\r\n",
  "║                Twitter  https://twitter.com/1ban                             ║\r\n",
  "║              AngelList  https://angel.co/yutaka-ichibangase                  ║\r\n",
  "║               LinkedIn  https://www.linkedin.com/in/yutakaichibangase        ║\r\n",
  "║                   Blog  http://www.y1ban.com/                                ║\r\n",
  "║                  Email  yichiban@gmail.com                                   ║\r\n",
  "║                                                                              ║\r\n",
  "║                                                                              ║\r\n",
  "║     Press any key to quit.                                                   ║\r\n",
  "║                                                                              ║\r\n",
  "╚══════════════════════════════════════════════════════════════════════════════╝",
  "\x1b[0m"
]

/-- The bytes of a Go string: its UTF-8 encoding. -/
def utf8 (p : String) : List UInt8 :=
  p.data.flatMap String.utf8EncodeChar

/-- The size of the buffer of `bufio.NewWriter`. -/
def defaultBufSize : Nat := 4096

/-- The loop `for _, p := range parts` of `render` on the buffer of the `bufio.Writer`: a
fragment that fits in the free space of the buffer is copied to it, nothing reaches the
channel and `Fprint` returns no error.  All fragments together fit (`buffered_length`), so
this is the only path the loop takes. -/
def fprintAll (buf : List UInt8) : List String → List UInt8
  | [] => buf
  | p :: ps => fprintAll (buf ++ utf8 p) ps

/-- `render`: print every fragment to a `bufio.Writer` on the channel, then `Flush`, which
hands the buffer to the channel in one `Write` and returns its error. -/
def Session.render (s : Session) : Session × Option Error × List Event :=
  let buf := fprintAll [] parts
  let (c, err) := s.channel.Write
  ({ s with channel := c }, err, [Event.write buf err])

/-! ## The session -/

/-- `handlePtyReq`.  The results of `parseSize` are assigned to `s.width` and `s.height`
before the error is looked at, as in
`if s.width, s.height, err = parseSize(r); err != nil`. -/
def Session.handlePtyReq (s : Session) (req : Request) : Session × List Event :=
  match parseTerm req.Payload with
  | .error _ => (s, [Event.log "failed to parse term"])
  | .ok (_, r) =>
    let (width, height, err) := parseSize r
    let s1 := { s with width := width, height := height }
    match err with
    | some _ => (s1, [Event.log "failed to parse size"])
    | none =>
      if req.WantReply then
        match req.replyErr with
        | some e => (s1, [Event.reply true (some e), Event.log "failed to reply"])
        | none => (s1, [Event.reply true none])
      else
        (s1, [])

/-- `handleWindowChange`.  The assignment of the results of `parseSize` is as in
`handlePtyReq`; a failed `Reply` returns before the render. -/
def Session.handleWindowChange (s : Session) (req : Request) : Session × List Event :=
  let (width, height, err) := parseSize req.Payload
  let s1 := { s with width := width, height := height }
  match err with
  | some _ => (s1, [Event.log "failed to parse size"])
  | none =>
    let replied : Bool × List Event :=
      if req.WantReply then
        match req.replyErr with
        | some e => (false, [Event.reply true (some e), Event.log "failed to reply"])
        | none => (true, [Event.reply true none])
      else
        (true, [])
    if replied.1 then
      match s1.render with
      | (s2, some _, es) => (s2, replied.2 ++ es ++ [Event.log "failed to render"])
      | (s2, none, es) => (s2, replied.2 ++ es)
    else
      (s1, replied.2)

/-- The body of the loop of `handleRequests` for one request: the `switch` on `req.Type`,
which has no `default` case. -/
def Session.dispatch (s : Session) (req : Request) : Session × List Event :=
  if req.Type_ = "pty-req" then s.handlePtyReq req
  else if req.Type_ = "window-change" then s.handleWindowChange req
  else (s, [])

/-- The loop of `handleRequests` on the requests that the stream delivers; at the end of the
stream the receive gives `nil` and the loop returns. -/
def Session.handleRequestsFrom (s : Session) : List Request → Session × List Event
  | [] => (s, [])
  | req :: rest =>
    let (s1, es1) := s.dispatch req
    let (s2, es2) := s1.handleRequestsFrom rest
    (s2, es1 ++ es2)

/-- `handleRequests`: the loop over the session's own request stream. -/
def Session.handleRequests (s : Session) : Session × List Event :=
  s.handleRequestsFrom s.requests

/-- `run`, the main body: render, return on an error; else read one rune from the channel
and return. -/
def Session.run (s : Session) : Session × List Event :=
  match s.render with
  | (s1, some _, es) => (s1, es ++ [Event.log "failed to render"])
  | (s1, none, es) =>
    match s1.channel.readErr with
    | some e => (s1, es ++ [Event.readRune (some e), Event.log "failed to read rune"])
    | none => (s1, es ++ [Event.readRune none])

/-- `Run`: `go s.handleRequests()` and then `s.run()`.  The result is the state and events
of the main body; the events of the goroutine are those of `handleRequests`, and how the
two interleave is not part of the model. -/
def Session.Run (s : Session) : Session × List Event :=
  s.run

/-- `Close`: close the channel, log an error. -/
def Session.Close (s : Session) : List Event :=
  match s.channel.closeErr with
  | some e => [Event.close (some e), Event.log "failed to close"]
  | none => [Event.close none]

/-- `NewSession`, with its two results and the events it causes. -/
def NewSession (ch : NewChannel) : Option Session × Option Error × List Event :=
  if ch.channelType ≠ "session" then
    let msg := "unknown channel type: " ++ ch.channelType
    match ch.rejectErr with
    | some err =>
      (none, some err,
        [Event.reject RejectionReason.UnknownChannelType msg (some err),
         Event.log "failed to reject channel"])
    | none =>
      (none, some (Error.New msg), [Event.reject RejectionReason.UnknownChannelType msg none])
  else
    match ch.acceptErr with
    | some err => (none, some err, [Event.accept (some err), Event.log "failed to accept channel"])
    | none =>
      (some { channel := ch.channel, requests := ch.requests, width := 80, height := 25 },
        none, [Event.accept none])

/-- `handle`: the events of the goroutine that serves one channel-open request.  The deferred
`Close` runs after `Run` has returned.  `NewSession` never returns neither a session nor an
error, so the second case is not reached. -/
def handle (ch : NewChannel) : List Event :=
  match NewSession ch with
  | (_, some _, es) => es ++ [Event.log "failed to create a new session"]
  | (none, none, es) => es
  | (some s, none, es) =>
    let (s1, es1) := s.Run
    es ++ es1 ++ s1.Close

/-! ## Concrete inputs -/

/-- A channel on which every call succeeds. -/
def goodChannel : Channel :=
  { writeErrs := [], readErr := none, closeErr := none }

/-- A channel whose next `Write` fails. -/
def brokenChannel : Channel :=
  { writeErrs := [some (Error.New "channel closed")], readErr := none, closeErr := none }

/-- A session as `NewSession` makes it, on `goodChannel` and with no request pending. -/
def freshSession : Session :=
  { channel := goodChannel, requests := [], width := 80, height := 25 }

/-- A `window-change` request for 132 columns and 43 rows. -/
def resizeRequest (wantReply : Bool) (replyErr : Option Error) : Request :=
  { Type_ := "window-change", WantReply := wantReply,
    Payload := PutUint32 132 ++ PutUint32 43, replyErr := replyErr }

/-- A `pty-req` request for the terminal type `xterm`, 132 columns and 43 rows, followed by
the pixel sizes and an empty mode list. -/
def ptyRequest (wantReply : Bool) (replyErr : Option Error) : Request :=
  { Type_ := "pty-req", WantReply := wantReply,
    Payload := PutUint32 5 ++ [120, 116, 101, 114, 109] ++ PutUint32 132 ++ PutUint32 43
      ++ (PutUint32 0 ++ PutUint32 0 ++ PutUint32 0),
    replyErr := replyErr }

/-- A session of 80 by 25 on a channel whose next `Write` fails. -/
def brokenSession : Session :=
  { channel := brokenChannel, requests := [], width := 80, height := 25 }

/-- A channel-open request of type `shell`. -/
def shellChannel : NewChannel :=
  { channelType := "shell", rejectErr := none, acceptErr := none,
    channel := goodChannel, requests := [] }

/-- A `session` channel-open request that is accepted; the channel delivers no control
request, and its first `Write` fails. -/
def brokenNewChannel : NewChannel :=
  { channelType := "session", rejectErr := none, acceptErr := none,
    channel := brokenChannel, requests := [] }

/-- An accepted `session` channel-open request on a channel where every call succeeds. -/
def sessionChannel : NewChannel :=
  { channelType := "session", rejectErr := none, acceptErr := none,
    channel := goodChannel, requests := [] }

/-! ## Well-formed requests with a positive size -/

/-- A request that carries a well-formed payload with a positive width and height, if it is
a `pty-req` or a `window-change` request: for `pty-req` a 4-byte length, that many bytes,
a 4-byte width, a 4-byte height and any further bytes; for `window-change` a 4-byte width, a
4-byte height and any further bytes.  Other requests are not restricted. -/
def Request.positiveSize (req : Request) : Prop :=
  (req.Type_ = "pty-req" →
    ∃ (term rest : List UInt8) (W H : Nat),
      term.length < 2 ^ 32 ∧ 0 < W ∧ W < 2 ^ 32 ∧ 0 < H ∧ H < 2 ^ 32 ∧
      req.Payload = PutUint32 term.length ++ term ++ PutUint32 W ++ PutUint32 H ++ rest) ∧
  (req.Type_ = "window-change" →
    ∃ (rest : List UInt8) (W H : Nat),
      0 < W ∧ W < 2 ^ 32 ∧ 0 < H ∧ H < 2 ^ 32 ∧
      req.Payload = PutUint32 W ++ PutUint32 H ++ rest)

/-- A `window-change` request for 0 columns and 0 rows, well-formed on the wire. -/
def zeroRequest : Request :=
  { Type_ := "window-change", WantReply := false,
    Payload := PutUint32 0 ++ PutUint32 0, replyErr := none }

/-- An accepted `session` channel that delivers `zeroRequest`. -/
def zeroNewChannel : NewChannel :=
  { channelType := "session", rejectErr := none, acceptErr := none,
    channel := goodChannel, requests := [zeroRequest] }

/-- An accepted `session` channel that delivers a `pty-req` request for 132 by 43, an `env`
request with an arbitrary payload, and a `window-change` request for 132 by 43 whose reply
fails. -/
def busyNewChannel : NewChannel :=
  { channelType := "session", rejectErr := none, acceptErr := none, channel := goodChannel,
    requests :=
      [ptyRequest true none,
       { Type_ := "env", WantReply := true, Payload := [1, 2, 3], replyErr := none },
       resizeRequest true (some Error.EOF)] }

/-- The session that `NewSession` makes for `busyNewChannel`. -/
def busySession : Session :=
  { channel := goodChannel, requests := busyNewChannel.requests, width := 80, height := 25 }

/-! ## The rows of the card -/

/-- The fragments between the cursor-home and the final reset of the attributes. -/
def cardRows : List String :=
  (parts.drop 2).dropLast

/-- Remove the attribute sequences from a text: each runs from an `ESC` to the next letter
`m`.  The flag says that the text starts inside such a sequence. -/
def stripAttrs : Bool → List Char → List Char
  | _, [] => []
  | true, c :: cs => if c = 'm' then stripAttrs false cs else stripAttrs true cs
  | false, c :: cs => if c = '\x1b' then stripAttrs true cs else c :: stripAttrs false cs

/-- Does the text end with CR LF. -/
def endsWithCRLF (cs : List Char) : Bool :=
  cs.reverse.take 2 == ['\n', '\r']

/-- Remove a trailing CR LF. -/
def stripCRLF (cs : List Char) : List Char :=
  if endsWithCRLF cs then (cs.dropLast).dropLast else cs

/-- What a row shows on the screen: its characters without the trailing CR LF and without
the attribute sequences. -/
def visible (row : String) : List Char :=
  stripAttrs false (stripCRLF row.data)

/-- The characters of the Unicode block Box Drawing, `U+2500` to `U+257F`. -/
def isBoxDrawing (c : Char) : Bool :=
  0x2500 ≤ c.toNat && c.toNat ≤ 0x257f

/-- Cut a byte sequence after each line feed: every piece but the last ends with the line
feed, the last piece is what follows the last line feed. -/
def cutLines (cur : List UInt8) : List UInt8 → List (List UInt8)
  | [] => [cur.reverse]
  | b :: bs => if b = 10 then (b :: cur).reverse :: cutLines [] bs else cutLines (b :: cur) bs

/-! ## Lemmas on the byte-level readers -/

theorem toNat_ofNat_mod (n : Nat) : (UInt8.ofNat n).toNat = n % 256 := by
  simp [UInt8.toNat, UInt8.ofNat]

theorem Uint32_eq_sum (b0 b1 b2 b3 : UInt8) :
    Uint32 b0 b1 b2 b3
      = b0.toNat * 2 ^ 24 + b1.toNat * 2 ^ 16 + b2.toNat * 2 ^ 8 + b3.toNat := by
  have h0 := b0.toNat_lt_size
  have h1 := b1.toNat_lt_size
  have h2 := b2.toNat_lt_size
  have h3 := b3.toNat_lt_size
  simp only [UInt8.size] at h0 h1 h2 h3
  unfold Uint32
  simp only [Nat.shiftLeft_eq]
  have e1 : b3.toNat ||| b2.toNat * 2 ^ 8 = 2 ^ 8 * b2.toNat + b3.toNat := by
    rw [Nat.or_comm, Nat.mul_comm, Nat.mul_add_lt_is_or (by omega)]
  have e2 : (2 ^ 8 * b2.toNat + b3.toNat) ||| b1.toNat * 2 ^ 16
      = 2 ^ 16 * b1.toNat + (2 ^ 8 * b2.toNat + b3.toNat) := by
    rw [Nat.or_comm, Nat.mul_comm]
    exact (Nat.mul_add_lt_is_or (by omega) _).symm
  have e3 : (2 ^ 16 * b1.toNat + (2 ^ 8 * b2.toNat + b3.toNat)) ||| b0.toNat * 2 ^ 24
      = 2 ^ 24 * b0.toNat + (2 ^ 16 * b1.toNat + (2 ^ 8 * b2.toNat + b3.toNat)) := by
    rw [Nat.or_comm, Nat.mul_comm]
    exact (Nat.mul_add_lt_is_or (by omega) _).symm
  rw [e1, e2, e3]
  omega

theorem Uint32_lt (b0 b1 b2 b3 : UInt8) : Uint32 b0 b1 b2 b3 < 2 ^ 32 := by
  have h0 := b0.toNat_lt_size
  have h1 := b1.toNat_lt_size
  have h2 := b2.toNat_lt_size
  have h3 := b3.toNat_lt_size
  simp only [UInt8.size] at h0 h1 h2 h3
  rw [Uint32_eq_sum]
  omega

theorem binaryRead_PutUint32 (v : Nat) (hv : v < 2 ^ 32) (rest : List UInt8) :
    binaryRead (PutUint32 v ++ rest) = .ok (v, rest) := by
  simp only [PutUint32, List.cons_append, List.nil_append, binaryRead, Uint32_eq_sum,
    toNat_ofNat_mod, Nat.shiftRight_eq_div_pow]
  congr 2
  omega

theorem parseSize_PutUint32 (W H : Nat) (hW : W < 2 ^ 32) (hH : H < 2 ^ 32)
    (rest : List UInt8) :
    parseSize (PutUint32 W ++ (PutUint32 H ++ rest)) = ((W : Int), (H : Int), none) := by
  unfold parseSize
  rw [binaryRead_PutUint32 W hW]
  simp only []
  rw [binaryRead_PutUint32 H hH]
  simp [toInt]

theorem parseTerm_PutUint32 (term tail : List UInt8) (hL : term.length < 2 ^ 32)
    (htail : tail ≠ []) :
    parseTerm (PutUint32 term.length ++ (term ++ tail)) = .ok (term, tail) := by
  have hne : term ++ tail ≠ [] := by simp [htail]
  simp only [parseTerm, binaryRead_PutUint32 _ hL]
  cases h : term ++ tail with
  | nil => exact absurd h hne
  | cons b bs =>
    simp only [readerRead]
    rw [← h]
    simp

/-! ## Request handling -/

theorem parseSize_short (r : List UInt8) (h : r.length < 8) :
    ∃ err, parseSize r = (0, 0, some err) := by
  unfold parseSize binaryRead
  match r, h with
  | [], _ => exact ⟨_, rfl⟩
  | [_], _ => exact ⟨_, rfl⟩
  | [_, _], _ => exact ⟨_, rfl⟩
  | [_, _, _], _ => exact ⟨_, rfl⟩
  | [_, _, _, _], _ => exact ⟨_, rfl⟩
  | [_, _, _, _, _], _ => exact ⟨_, rfl⟩
  | [_, _, _, _, _, _], _ => exact ⟨_, rfl⟩
  | [_, _, _, _, _, _, _], _ => exact ⟨_, rfl⟩
  | _ :: _ :: _ :: _ :: _ :: _ :: _ :: _ :: _, h =>
    simp at h
    omega

/-- What `handleWindowChange` does with a payload of fewer than eight bytes: both fields
are overwritten with the zeros that `parseSize` returns next to its error, and the only
event is the log line. -/
theorem handleWindowChange_short (s : Session) (req : Request) (h : req.Payload.length < 8) :
    s.handleWindowChange req
      = ({ s with width := 0, height := 0 }, [Event.log "failed to parse size"]) := by
  obtain ⟨err, herr⟩ := parseSize_short req.Payload h
  simp [Session.handleWindowChange, herr]

/-- What `handlePtyReq` does with a payload that ends before the length, the declared bytes
of the terminal type, the width and the height are all there: the only event is a log line,
so no reply is sent; the session is as it was when `parseTerm` fails, and has width and
height 0 when `parseSize` fails. -/
theorem handlePtyReq_short (s : Session) (req : Request)
    (h : ∀ b0 b1 b2 b3 rest, req.Payload = b0 :: b1 :: b2 :: b3 :: rest →
      rest.length < Uint32 b0 b1 b2 b3 + 8) :
    s.handlePtyReq req = (s, [Event.log "failed to parse term"]) ∨
    s.handlePtyReq req
      = ({ s with width := 0, height := 0 }, [Event.log "failed to parse size"]) := by
  unfold Session.handlePtyReq parseTerm binaryRead
  match hp : req.Payload with
  | [] => exact Or.inl rfl
  | [_] => exact Or.inl rfl
  | [_, _] => exact Or.inl rfl
  | [_, _, _] => exact Or.inl rfl
  | [_, _, _, _] => exact Or.inl rfl
  | b0 :: b1 :: b2 :: b3 :: c :: cs =>
    have hlen := h b0 b1 b2 b3 (c :: cs) hp
    have hdrop : ((c :: cs).drop (Uint32 b0 b1 b2 b3)).length < 8 := by
      rw [List.length_drop]
      omega
    obtain ⟨err, herr⟩ := parseSize_short _ hdrop
    right
    simp [readerRead, herr]

/-- C1, at a failing input: a session of 80 by 25 receives a `window-change` request with an
empty payload, and a `pty-req` request whose payload stops after the terminal type.  No reply
is sent, but in both cases the geometry afterwards is 0 by 0, not 80 by 25. -/
theorem truncated_payload_zeroes_geometry :
    freshSession.handleWindowChange
        { Type_ := "window-change", WantReply := true, Payload := [], replyErr := none }
      = ({ freshSession with width := 0, height := 0 }, [Event.log "failed to parse size"]) ∧
    freshSession.handlePtyReq
        { Type_ := "pty-req", WantReply := true,
          Payload := PutUint32 5 ++ [120, 116, 101, 114, 109], replyErr := none }
      = ({ freshSession with width := 0, height := 0 }, [Event.log "failed to parse size"]) := by
  constructor <;> decide

/-- C3: a `pty-req` payload made of a 4-byte length, that many bytes of terminal type, a
4-byte width `W`, a 4-byte height `H` and any further bytes, with `W` and `H` positive,
sets the geometry to exactly `(W, H)` and leaves the rest of the session as it was; the only
call into the library is one positive `Reply` when a reply was asked for, whatever that
call returns, and nothing is written to the channel. -/
theorem handlePtyReq_valid (s : Session) (req : Request) (term rest : List UInt8) (W H : Nat)
    (hL : term.length < 2 ^ 32) (hW : W < 2 ^ 32) (hH : H < 2 ^ 32)
    (hWpos : 0 < W) (hHpos : 0 < H)
    (hp : req.Payload
      = PutUint32 term.length ++ term ++ PutUint32 W ++ PutUint32 H ++ rest) :
    (s.handlePtyReq req).1 = { s with width := (W : Int), height := (H : Int) } ∧
    0 < (s.handlePtyReq req).1.width ∧ 0 < (s.handlePtyReq req).1.height ∧
    calls (s.handlePtyReq req).2
      = (if req.WantReply then [Event.reply true req.replyErr] else []) := by
  have hterm : parseTerm req.Payload = .ok (term, PutUint32 W ++ (PutUint32 H ++ rest)) := by
    rw [hp]
    simp only [List.append_assoc]
    exact parseTerm_PutUint32 term _ hL (by simp [PutUint32])
  have hsize := parseSize_PutUint32 W H hW hH rest
  have hW' : (0 : Int) < (W : Int) := by exact_mod_cast hWpos
  have hH' : (0 : Int) < (H : Int) := by exact_mod_cast hHpos
  unfold Session.handlePtyReq
  rw [hterm]
  simp only [hsize]
  cases hr : req.WantReply <;> cases he : req.replyErr <;>
    simp [calls, Event.isLog, hW', hH']

/-- C3, witness: the `xterm` request for 132 by 43 with a reply that fails. -/
theorem handlePtyReq_valid_witness :
    (freshSession.handlePtyReq (ptyRequest true (some Error.EOF))).1
      = { freshSession with width := 132, height := 43 } ∧
    0 < (freshSession.handlePtyReq (ptyRequest true (some Error.EOF))).1.width ∧
    0 < (freshSession.handlePtyReq (ptyRequest true (some Error.EOF))).1.height ∧
    calls (freshSession.handlePtyReq (ptyRequest true (some Error.EOF))).2
      = (if (ptyRequest true (some Error.EOF)).WantReply
          then [Event.reply true (ptyRequest true (some Error.EOF)).replyErr] else []) :=
  handlePtyReq_valid freshSession (ptyRequest true (some Error.EOF))
    [120, 116, 101, 114, 109] (PutUint32 0 ++ PutUint32 0 ++ PutUint32 0) 132 43
    (by decide) (by decide) (by decide) (by decide) (by decide) rfl

/-- C2, counterexample: a well-formed `window-change` request for 132 by 43 that asks for a
reply, on a channel that works, where sending the reply fails.  The geometry is updated, but
`handleWindowChange` returns after the failed reply: nothing is written to the channel, so
no render takes place. -/
theorem handleWindowChange_failed_reply_skips_render :
    (freshSession.handleWindowChange (resizeRequest true (some Error.EOF))).1.width = 132 ∧
    (freshSession.handleWindowChange (resizeRequest true (some Error.EOF))).1.height = 43 ∧
    List.countP Event.isWrite
      (freshSession.handleWindowChange (resizeRequest true (some Error.EOF))).2 = 0 := by
  decide

/-- C2, amended: a `window-change` payload that starts with a 4-byte width `W` and a 4-byte
height `H` sets the geometry to exactly `(W, H)`.  When no reply is asked for, the only call
is the one `Write` of the render; when a reply is asked for and sent, the calls are the
positive `Reply` and then the one `Write` of the render, whatever that `Write` returns;
when sending the reply fails, the `Reply` is the only call and there is no render. -/
theorem handleWindowChange_valid (s : Session) (req : Request) (rest : List UInt8) (W H : Nat)
    (hW : W < 2 ^ 32) (hH : H < 2 ^ 32)
    (hp : req.Payload = PutUint32 W ++ PutUint32 H ++ rest) :
    (s.handleWindowChange req).1.width = (W : Int) ∧
    (s.handleWindowChange req).1.height = (H : Int) ∧
    calls (s.handleWindowChange req).2
      = (if req.WantReply then
          match req.replyErr with
          | some e => [Event.reply true (some e)]
          | none => [Event.reply true none, Event.write (fprintAll [] parts) s.channel.Write.2]
        else [Event.write (fprintAll [] parts) s.channel.Write.2]) := by
  have hsize : parseSize req.Payload = ((W : Int), (H : Int), none) := by
    rw [hp, List.append_assoc]
    exact parseSize_PutUint32 W H hW hH rest
  unfold Session.handleWindowChange
  simp only [hsize]
  cases hr : req.WantReply <;> cases he : req.replyErr <;>
    cases hw : s.channel.Write.2 <;>
    simp [calls, Event.isLog, Session.render, hw]

/-- C2, witness: the request for 132 by 43 with a reply that is sent. -/
theorem handleWindowChange_valid_witness :
    (freshSession.handleWindowChange (resizeRequest true none)).1.width = ((132 : Nat) : Int) ∧
    (freshSession.handleWindowChange (resizeRequest true none)).1.height = ((43 : Nat) : Int) ∧
    calls (freshSession.handleWindowChange (resizeRequest true none)).2
      = (if (resizeRequest true none).WantReply then
          match (resizeRequest true none).replyErr with
          | some e => [Event.reply true (some e)]
          | none =>
            [Event.reply true none, Event.write (fprintAll [] parts) freshSession.channel.Write.2]
        else [Event.write (fprintAll [] parts) freshSession.channel.Write.2]) :=
  handleWindowChange_valid freshSession (resizeRequest true none) [] 132 43
    (by decide) (by decide) rfl

/-- C8: a request whose name is neither `pty-req` nor `window-change` leaves the whole
session, its width, height and channel, as it was and causes no event at all (no reply, no
write, no log line), whatever its payload and its reply flag; the loop goes on with the
requests that follow as if the request had not been there. -/
theorem handleRequests_ignores_unknown (s : Session) (req : Request) (rest : List Request)
    (hpty : req.Type_ ≠ "pty-req") (hwin : req.Type_ ≠ "window-change") :
    s.dispatch req = (s, []) ∧
    s.handleRequestsFrom (req :: rest) = s.handleRequestsFrom rest ∧
    ({ s with requests := [req] }).handleRequests = ({ s with requests := [req] }, []) := by
  have hd : ∀ t : Session, t.dispatch req = (t, []) := by
    intro t
    simp [Session.dispatch, hpty, hwin]
  refine ⟨hd s, ?_, ?_⟩
  · simp [Session.handleRequestsFrom, hd]
  · simp [Session.handleRequests, Session.handleRequestsFrom, hd]

/-- C8, witness: an `env` request that asks for a reply, followed by a resize request. -/
theorem handleRequests_ignores_unknown_witness :
    freshSession.dispatch
        { Type_ := "env", WantReply := true, Payload := [1, 2, 3], replyErr := none }
      = (freshSession, []) ∧
    freshSession.handleRequestsFrom
        ({ Type_ := "env", WantReply := true, Payload := [1, 2, 3], replyErr := none }
          :: [resizeRequest false none])
      = freshSession.handleRequestsFrom [resizeRequest false none] ∧
    ({ freshSession with requests :=
        [{ Type_ := "env", WantReply := true, Payload := [1, 2, 3], replyErr := none }] }
      ).handleRequests
      = ({ freshSession with requests :=
            [{ Type_ := "env", WantReply := true, Payload := [1, 2, 3], replyErr := none }] },
          []) :=
  handleRequests_ignores_unknown freshSession
    { Type_ := "env", WantReply := true, Payload := [1, 2, 3], replyErr := none }
    [resizeRequest false none] (by decide) (by decide)

/-! ## The main body and the renderer -/

theorem fprintAll_eq (buf : List UInt8) (ps : List String) :
    fprintAll buf ps = buf ++ ps.flatMap utf8 := by
  induction ps generalizing buf with
  | nil => simp [fprintAll]
  | cons p ps ih => simp [fprintAll, ih]

theorem fprintAll_length (ps : List String) :
    (fprintAll [] ps).length = (ps.map (fun p => (utf8 p).length)).sum := by
  rw [fprintAll_eq]
  induction ps with
  | nil => rfl
  | cons p ps ih =>
    simp only [List.nil_append] at ih
    simp [List.flatMap_cons, ih]

set_option maxRecDepth 20000 in
/-- All fragments of `render` together are 2441 bytes and fit in the buffer of the
`bufio.Writer`, so the buffer is handed to the channel by `Flush` alone. -/
theorem buffered_length :
    (fprintAll [] parts).length = 2441 ∧ (fprintAll [] parts).length ≤ defaultBufSize := by
  rw [fprintAll_length]
  decide

theorem render_events (s : Session) :
    s.render.2.2 = [Event.write (fprintAll [] parts) s.render.2.1] := by
  simp [Session.render]

/-- C7: any two sessions whose render succeeds hand the same byte sequence to the channel,
in one `Write`; the sequence begins with `ESC [ 2 J` and `ESC [ H` and ends with
`ESC [ 0 m`. -/
theorem render_same_bytes (s1 s2 : Session)
    (h1 : s1.render.2.1 = none) (h2 : s2.render.2.1 = none) :
    ∃ data : List UInt8,
      s1.render.2.2 = [Event.write data none] ∧
      s2.render.2.2 = [Event.write data none] ∧
      [0x1b, 0x5b, 0x32, 0x4a, 0x1b, 0x5b, 0x48] <+: data ∧
      [0x1b, 0x5b, 0x30, 0x6d] <:+ data := by
  refine ⟨fprintAll [] parts, ?_, ?_, ?_, ?_⟩
  · rw [render_events, h1]
  · rw [render_events, h2]
  · rw [fprintAll_eq]
    have hp : parts = "\x1b[2J" :: "\x1b[H" :: parts.drop 2 := by rfl
    rw [hp]
    refine ⟨(parts.drop 2).flatMap utf8, ?_⟩
    have e1 : utf8 "\x1b[2J" = [0x1b, 0x5b, 0x32, 0x4a] := by decide
    have e2 : utf8 "\x1b[H" = [0x1b, 0x5b, 0x48] := by decide
    simp only [List.flatMap_cons, List.nil_append, e1, e2, List.cons_append]
  · rw [fprintAll_eq]
    have hp : parts = parts.dropLast ++ ["\x1b[0m"] := by rfl
    rw [hp]
    refine ⟨parts.dropLast.flatMap utf8, ?_⟩
    have e : utf8 "\x1b[0m" = [0x1b, 0x5b, 0x30, 0x6d] := by decide
    simp [List.flatMap_append, e]

/-- C7, witness: the fresh session and the same session after a resize to 132 by 43. -/
theorem render_same_bytes_witness :
    ∃ data : List UInt8,
      freshSession.render.2.2 = [Event.write data none] ∧
      (freshSession.handleWindowChange (resizeRequest true none)).1.render.2.2
        = [Event.write data none] ∧
      [0x1b, 0x5b, 0x32, 0x4a, 0x1b, 0x5b, 0x48] <+: data ∧
      [0x1b, 0x5b, 0x30, 0x6d] <:+ data :=
  render_same_bytes freshSession
    (freshSession.handleWindowChange (resizeRequest true none)).1 (by decide) (by decide)

/-- C4, counterexample: on a channel whose `Write` fails the render of the main body
returns an error, and `run` then returns without reading: its events hold no read. -/
theorem run_render_failure_no_read :
    brokenSession.render.2.1 = some (Error.New "channel closed") ∧
    List.countP Event.isReadRune brokenSession.run.2 = 0 := by
  decide

/-- C4, amended: the main body always returns.  When its render returns an error, the one
`Write` of that render is its only call: it returns at once and reads nothing.  When the
render succeeds, the `Write` is followed by exactly one read of a rune, which is the last
call before the return, whether the read gives input or an error. -/
theorem run_calls (s : Session) :
    calls s.run.2
      = (match s.render.2.1 with
        | some e => [Event.write (fprintAll [] parts) (some e)]
        | none => [Event.write (fprintAll [] parts) none, Event.readRune s.channel.readErr]) := by
  have hread : (s.channel.Write).1.readErr = s.channel.readErr := by
    unfold Channel.Write
    cases s.channel.writeErrs <;> rfl
  cases hw : s.channel.Write.2 <;> cases hr : s.channel.readErr <;>
    simp [Session.run, Session.render, calls, Event.isLog, hw, hr, hread]

/-! ## Channel-open requests and the life of a session -/

/-- C5: for a channel type `t` other than `session`, `NewSession` returns no session and an
error; its only call into the library is one `Reject` with the reason `UnknownChannelType`
and the message `unknown channel type: ` followed by `t`, which contains `t`; `handle` makes
no further call, so there is no `Accept`, no write, no read and no `Close`. -/
theorem NewSession_rejects (ch : NewChannel) (h : ch.channelType ≠ "session") :
    (NewSession ch).1 = none ∧
    (NewSession ch).2.1 ≠ none ∧
    calls (NewSession ch).2.2
      = [Event.reject RejectionReason.UnknownChannelType
          ("unknown channel type: " ++ ch.channelType) ch.rejectErr] ∧
    ch.channelType.data <:+ ("unknown channel type: " ++ ch.channelType).data ∧
    calls (handle ch)
      = [Event.reject RejectionReason.UnknownChannelType
          ("unknown channel type: " ++ ch.channelType) ch.rejectErr] := by
  have hsuffix : ch.channelType.data <:+ ("unknown channel type: " ++ ch.channelType).data := by
    rw [String.data_append]
    exact List.suffix_append _ _
  refine ⟨?_, ?_, ?_, hsuffix, ?_⟩ <;>
    cases hr : ch.rejectErr <;>
    simp [NewSession, handle, h, hr, calls, Event.isLog]

/-- C5, witness: a channel-open request of type `shell`. -/
theorem NewSession_rejects_witness :
    (NewSession shellChannel).1 = none ∧
    (NewSession shellChannel).2.1 ≠ none ∧
    calls (NewSession shellChannel).2.2
      = [Event.reject RejectionReason.UnknownChannelType
          ("unknown channel type: " ++ shellChannel.channelType) shellChannel.rejectErr] ∧
    shellChannel.channelType.data
      <:+ ("unknown channel type: " ++ shellChannel.channelType).data ∧
    calls (handle shellChannel)
      = [Event.reject RejectionReason.UnknownChannelType
          ("unknown channel type: " ++ shellChannel.channelType) shellChannel.rejectErr] :=
  NewSession_rejects shellChannel (by decide)

/-- C9, counterexample: an accepted `session` channel with no control request on which the
`Write` of the render fails.  `handle` renders once and closes the channel once, but it does
not read: `run` has returned after the failed render. -/
theorem handle_render_failure_no_read :
    (NewSession brokenNewChannel).1 = some brokenSession ∧
    List.countP Event.isWrite (handle brokenNewChannel) = 1 ∧
    List.countP Event.isReadRune (handle brokenNewChannel) = 0 ∧
    List.countP Event.isClose (handle brokenNewChannel) = 1 := by
  decide

/-- C9, amended: for an accepted `session` channel the calls of `handle` are, in order: the
`Accept`, the one `Write` of the render, one read of a rune if and only if the render
succeeded, and last the one `Close`; when the channel delivers no control request, the
request handler causes no event besides.  So on each exit path of the main body (render failed, read failed, input
received) the channel is closed exactly once, after the main body has returned, and nothing
is written after the render. -/
theorem handle_session_calls (ch : NewChannel) (ht : ch.channelType = "session")
    (ha : ch.acceptErr = none) :
    (ch.requests = [] → ∀ s, (NewSession ch).1 = some s → s.handleRequests = (s, [])) ∧
    calls (handle ch)
      = (match ch.channel.Write.2 with
        | some e =>
          [Event.accept none, Event.write (fprintAll [] parts) (some e),
           Event.close ch.channel.closeErr]
        | none =>
          [Event.accept none, Event.write (fprintAll [] parts) none,
           Event.readRune ch.channel.readErr, Event.close ch.channel.closeErr]) := by
  have hread : (ch.channel.Write).1.readErr = ch.channel.readErr := by
    unfold Channel.Write
    cases ch.channel.writeErrs <;> rfl
  have hclose : (ch.channel.Write).1.closeErr = ch.channel.closeErr := by
    unfold Channel.Write
    cases ch.channel.writeErrs <;> rfl
  constructor
  · intro hq s hs
    simp only [NewSession, ht, ha, ne_eq, not_true_eq_false, if_false, Option.some.injEq] at hs
    subst hs
    simp [Session.handleRequests, Session.handleRequestsFrom, hq]
  · cases hw : ch.channel.Write.2 <;> cases hr : ch.channel.readErr <;>
      cases hc : ch.channel.closeErr <;>
      simp [handle, NewSession, ht, ha, Session.Run, Session.run, Session.render, Session.Close,
        calls, Event.isLog, hw, hr, hc, hread, hclose]

/-- C9, witness: a `session` channel on which every call succeeds. -/
theorem handle_session_calls_witness :
    (sessionChannel.requests = [] →
      ∀ s, (NewSession sessionChannel).1 = some s → s.handleRequests = (s, [])) ∧
    calls (handle sessionChannel)
      = (match sessionChannel.channel.Write.2 with
        | some e =>
          [Event.accept none, Event.write (fprintAll [] parts) (some e),
           Event.close sessionChannel.channel.closeErr]
        | none =>
          [Event.accept none, Event.write (fprintAll [] parts) none,
           Event.readRune sessionChannel.channel.readErr,
           Event.close sessionChannel.channel.closeErr]) :=
  handle_session_calls sessionChannel rfl rfl

/-! ## The geometry invariant -/

theorem handlePtyReq_geometry (s : Session) (req : Request) (term rest : List UInt8)
    (W H : Nat) (hL : term.length < 2 ^ 32) (hW : W < 2 ^ 32) (hH : H < 2 ^ 32)
    (hp : req.Payload
      = PutUint32 term.length ++ term ++ PutUint32 W ++ PutUint32 H ++ rest) :
    (s.handlePtyReq req).1.width = (W : Int) ∧ (s.handlePtyReq req).1.height = (H : Int) := by
  have hterm : parseTerm req.Payload = .ok (term, PutUint32 W ++ (PutUint32 H ++ rest)) := by
    rw [hp]
    simp only [List.append_assoc]
    exact parseTerm_PutUint32 term _ hL (by simp [PutUint32])
  have hsize := parseSize_PutUint32 W H hW hH rest
  unfold Session.handlePtyReq
  rw [hterm]
  simp only [hsize]
  cases hr : req.WantReply <;> cases he : req.replyErr <;> simp

theorem handleWindowChange_geometry (s : Session) (req : Request) (rest : List UInt8)
    (W H : Nat) (hW : W < 2 ^ 32) (hH : H < 2 ^ 32)
    (hp : req.Payload = PutUint32 W ++ PutUint32 H ++ rest) :
    (s.handleWindowChange req).1.width = (W : Int) ∧
    (s.handleWindowChange req).1.height = (H : Int) := by
  have hsize : parseSize req.Payload = ((W : Int), (H : Int), none) := by
    rw [hp, List.append_assoc]
    exact parseSize_PutUint32 W H hW hH rest
  unfold Session.handleWindowChange
  simp only [hsize]
  cases hr : req.WantReply <;> cases he : req.replyErr <;>
    cases hw : s.channel.Write.2 <;>
    simp [Session.render, hw]

theorem dispatch_positive (s : Session) (req : Request) (hreq : req.positiveSize)
    (hw : 1 ≤ s.width) (hh : 1 ≤ s.height) :
    1 ≤ (s.dispatch req).1.width ∧ 1 ≤ (s.dispatch req).1.height := by
  unfold Session.dispatch
  by_cases hpty : req.Type_ = "pty-req"
  · obtain ⟨term, rest, W, H, hL, hWpos, hW, hHpos, hH, hp⟩ := hreq.1 hpty
    obtain ⟨e1, e2⟩ := handlePtyReq_geometry s req term rest W H hL hW hH hp
    rw [if_pos hpty, e1, e2]
    omega
  · by_cases hwin : req.Type_ = "window-change"
    · obtain ⟨rest, W, H, hWpos, hW, hHpos, hH, hp⟩ := hreq.2 hwin
      obtain ⟨e1, e2⟩ := handleWindowChange_geometry s req rest W H hW hH hp
      rw [if_neg hpty, if_pos hwin, e1, e2]
      omega
    · rw [if_neg hpty, if_neg hwin]
      exact ⟨hw, hh⟩

theorem handleRequestsFrom_positive (reqs : List Request) :
    ∀ s : Session, (∀ req ∈ reqs, req.positiveSize) → 1 ≤ s.width → 1 ≤ s.height →
      1 ≤ (s.handleRequestsFrom reqs).1.width ∧ 1 ≤ (s.handleRequestsFrom reqs).1.height := by
  induction reqs with
  | nil =>
    intro s _ hw hh
    exact ⟨hw, hh⟩
  | cons req rest ih =>
    intro s hall hw hh
    have hd := dispatch_positive s req (hall req (List.mem_cons_self _ _)) hw hh
    have hrest := ih (s.dispatch req).1
      (fun r hr => hall r (List.mem_cons_of_mem _ hr)) hd.1 hd.2
    simpa [Session.handleRequestsFrom] using hrest

/-- C6, counterexample: the session that `NewSession` makes for an accepted channel is 80 by
25; the channel delivers one well-formed `window-change` request for 0 by 0, and after
`handleRequests` the width and the height are 0, which is not at least 1. -/
theorem handleRequests_zero_size :
    (NewSession zeroNewChannel).1
      = some { channel := goodChannel, requests := [zeroRequest], width := 80, height := 25 } ∧
    (Session.handleRequests
      { channel := goodChannel, requests := [zeroRequest], width := 80, height := 25 }).1.width
      = 0 ∧
    (Session.handleRequests
      { channel := goodChannel, requests := [zeroRequest], width := 80, height := 25 }).1.height
      = 0 := by
  decide

/-- C6, amended: a session that `NewSession` returns has width 80 and height 25, and when
every `pty-req` and `window-change` request that its request stream delivers has a
well-formed payload with a width and a height of at least 1 (requests of other names being
arbitrary, and so are the reply flags and reply results), the width and the height are at
least 1 after `handleRequests` has processed the stream. -/
theorem geometry_invariant (ch : NewChannel) (s : Session) (hs : (NewSession ch).1 = some s)
    (hreqs : ∀ req ∈ ch.requests, req.positiveSize) :
    s.width = 80 ∧ s.height = 25 ∧
    1 ≤ s.handleRequests.1.width ∧ 1 ≤ s.handleRequests.1.height := by
  have hs' : s = { channel := ch.channel, requests := ch.requests, width := 80, height := 25 } := by
    unfold NewSession at hs
    by_cases ht : ch.channelType = "session"
    · cases ha : ch.acceptErr with
      | none => simpa [ht, ha] using hs.symm
      | some e => simp [ht, ha] at hs
    · cases hr : ch.rejectErr <;> simp [ht, hr] at hs
  subst hs'
  refine ⟨rfl, rfl, ?_⟩
  exact handleRequestsFrom_positive ch.requests _ hreqs
    (show (1 : Int) ≤ 80 by decide) (show (1 : Int) ≤ 25 by decide)

/-- C6, witness: the session of `busyNewChannel`. -/
theorem geometry_invariant_witness :
    busySession.width = 80 ∧ busySession.height = 25 ∧
    1 ≤ busySession.handleRequests.1.width ∧ 1 ≤ busySession.handleRequests.1.height :=
  geometry_invariant busyNewChannel busySession (by decide) (by
    intro req hreq
    simp only [busyNewChannel, List.mem_cons, List.mem_singleton, List.not_mem_nil,
      or_false] at hreq
    rcases hreq with rfl | rfl | rfl
    · refine ⟨fun _ => ⟨[120, 116, 101, 114, 109], PutUint32 0 ++ PutUint32 0 ++ PutUint32 0,
        132, 43, by decide, by decide, by decide, by decide, by decide, rfl⟩, fun h => ?_⟩
      exact absurd h (by decide)
    · exact ⟨fun h => absurd h (by decide), fun h => absurd h (by decide)⟩
    · refine ⟨fun h => absurd h (by decide), fun _ => ⟨[], 132, 43, by decide, by decide,
        by decide, by decide, rfl⟩⟩)

/-! ## The card -/

/-- The bytes that `render` hands to the channel are the erase and the cursor-home, then
the UTF-8 encoding of the rows of the card one after the other, then the reset. -/
theorem written_card :
    fprintAll [] parts
      = [0x1b, 0x5b, 0x32, 0x4a, 0x1b, 0x5b, 0x48]
        ++ cardRows.flatMap (fun row => row.toUTF8.data.toList)
        ++ [0x1b, 0x5b, 0x30, 0x6d] := by
  decide!

/-- Cut after each line feed, the bytes of the card are the rows: no row holds a line feed
before its end. -/
theorem card_lines :
    cutLines [] (cardRows.flatMap (fun row => row.toUTF8.data.toList))
      = cardRows.map (fun row => row.toUTF8.data.toList) := by
  decide!

/-- C10: for every session, the one `Write` of `render` carries the erase `ESC [ 2 J`, the
cursor-home `ESC [ H`, the UTF-8 bytes of the 24 rows of the card and the reset `ESC [ 0 m`,
and nothing else; cut after each line feed, the bytes of the card are those 24 rows.  The
rows are the fragments of `render` between the cursor-home and the reset.  Every row,
without its attribute sequences and its trailing CR LF, is exactly 80 characters long and
starts and ends with a box-drawing character; every row but the last ends with CR LF.  So the
card is as wide as, and one row shorter than, the 80 by 25 of a session that `NewSession`
returns. -/
theorem card_fits_terminal (s : Session) (ch : NewChannel) :
    s.render.2.2
      = [Event.write
          ([0x1b, 0x5b, 0x32, 0x4a, 0x1b, 0x5b, 0x48]
            ++ cardRows.flatMap (fun row => row.toUTF8.data.toList)
            ++ [0x1b, 0x5b, 0x30, 0x6d])
          s.render.2.1] ∧
    cutLines [] (cardRows.flatMap (fun row => row.toUTF8.data.toList))
      = cardRows.map (fun row => row.toUTF8.data.toList) ∧
    parts = "\x1b[2J" :: "\x1b[H" :: cardRows ++ ["\x1b[0m"] ∧
    cardRows.length = 24 ∧
    (∀ row ∈ cardRows,
      (visible row).length = 80 ∧
      (visible row).head?.any isBoxDrawing = true ∧
      (visible row).getLast?.any isBoxDrawing = true) ∧
    (∀ row ∈ cardRows.dropLast, endsWithCRLF row.data = true) ∧
    (match (NewSession ch).1 with
      | some s0 => s0.width = 80 ∧ (cardRows.length : Int) + 1 = s0.height
      | none => True) := by
  refine ⟨?_, card_lines, ?_, ?_, ?_, ?_, ?_⟩
  · rw [render_events, written_card]
  · decide!
  · decide!
  · decide!
  · decide!
  · have hlen : cardRows.length = 24 := by decide!
    unfold NewSession
    by_cases ht : ch.channelType = "session"
    · cases ha : ch.acceptErr <;> simp [ht, ha, hlen]
    · cases hr : ch.rejectErr <;> simp [ht, hr]

end Sshme
